import Mathlib

/-!
Verification of the generic table browser of the sopdash repository:
identifier sanitization, the row-fetch fallback ladder, row normalization,
row-update validation, the client request-sequencing state machine, the
step-flow synthetic column, and the timed save-indicator choreography.
Each definition is a shallow embedding of the corresponding TypeScript
function; theorems settle the specification claims against them.
-/

/-! ## JavaScript numeric parsing

`Number.parseInt(s, 10)` skips leading whitespace, reads an optional sign
and then the longest decimal-digit prefix; it yields NaN when no digit is
read (modelled as `none`). -/

def jsIsSpace (c : Char) : Bool :=
  c = ' ' ∨ c = '\t' ∨ c = '\n' ∨ c = '\r' ∨ c = '\x0b' ∨ c = '\x0c'

def digitsToNat (ds : List Char) : Nat :=
  ds.foldl (fun acc c => acc * 10 + (c.toNat - '0'.toNat)) 0

def jsParseInt (s : String) : Option Int :=
  let cs := s.data.dropWhile jsIsSpace
  let signAndRest : Int × List Char :=
    match cs with
    | '-' :: r => (-1, r)
    | '+' :: r => (1, r)
    | r => (1, r)
  let ds := signAndRest.2.takeWhile Char.isDigit
  if ds.isEmpty then none
  else some (signAndRest.1 * (digitsToNat ds : Int))

example : jsParseInt "50" = some 50 := by decide
example : jsParseInt "2" = some 2 := by decide
example : jsParseInt "abc" = none := by decide
example : jsParseInt "7.9" = some 7 := by decide
example : jsParseInt " -12x" = some (-12) := by decide
example : jsParseInt "" = none := by decide

/-! ## String primitives

`String.split(".")` and `String.prototype.trim` are modelled on the
character list so that every definition evaluates inside the kernel. -/

def jsSplitDotAux : List Char → List Char → List (List Char)
  | [], acc => [acc.reverse]
  | c :: rest, acc =>
      if c = '.' then acc.reverse :: jsSplitDotAux rest []
      else jsSplitDotAux rest (c :: acc)

def jsSplitOnDot (s : String) : List String :=
  (jsSplitDotAux s.data []).map (fun cs => String.mk cs)

def jsTrim (s : String) : String :=
  String.mk (((s.data.dropWhile jsIsSpace).reverse.dropWhile jsIsSpace).reverse)

example : jsSplitOnDot "a.b" = ["a", "b"] := by decide
example : jsSplitOnDot "" = [""] := by decide
example : jsSplitOnDot "a.." = ["a", "", ""] := by decide
example : jsTrim "  a b " = "a b" := by decide

/-! ## Identifier Sanitizer (`sanitizeTableIdentifier`, route.ts lines 32-46)

Splits on `.`, trims each segment, drops falsy (empty) segments, then
fails when no segment remains or a remaining segment fails
`^[A-Za-z0-9_]+$`. -/

inductive SanitizeError
  | invalidIdentifier (message : String)
  deriving DecidableEq, Repr

def isWordChar (c : Char) : Bool :=
  (('A' ≤ c ∧ c ≤ 'Z') ∨ ('a' ≤ c ∧ c ≤ 'z') ∨ ('0' ≤ c ∧ c ≤ '9') ∨ c = '_')

def identifierPartOk (s : String) : Bool :=
  s ≠ "" ∧ s.data.all isWordChar

def sanitizeTableIdentifier (identifier : String) :
    Except SanitizeError (List String) :=
  let parts := ((jsSplitOnDot identifier).map jsTrim).filter (fun p => p ≠ "")
  if parts.isEmpty then
    .error (.invalidIdentifier "Table name is required")
  else if parts.all identifierPartOk then
    .ok parts
  else
    .error (.invalidIdentifier
      "Only alphanumeric characters and underscores are allowed in table names")

example : sanitizeTableIdentifier "sop.widgets" = .ok ["sop", "widgets"] := rfl
example : sanitizeTableIdentifier "a." = .ok ["a"] := rfl
example : (sanitizeTableIdentifier "a;b").isOk = false := rfl
example : (sanitizeTableIdentifier "..").isOk = false := rfl
example : sanitizeTableIdentifier " a . b " = .ok ["a", "b"] := rfl

/-! ## Rows and the Row Normalizer (`normalizeRows`, route.ts lines 52-66)

A result row is an ordered association list from column name to value;
`normalizeRows` drops every key matching `^\d+$`. -/

inductive Val
  | vnull
  | vstr (s : String)
  | vint (n : Int)
  | vbool (b : Bool)
  deriving DecidableEq, Repr

abbrev Row := List (String × Val)

def isNumericKey (k : String) : Bool :=
  k ≠ "" ∧ k.data.all Char.isDigit

def normalizeRow (row : Row) : Row :=
  row.filter (fun kv => !(isNumericKey kv.1))

def normalizeRows (rows : List Row) : List Row :=
  rows.map normalizeRow

def rowKeys (row : Row) : List String :=
  row.map Prod.fst

example :
    normalizeRow [("id", .vint 1), ("0", .vint 1), ("name", .vstr "x"), ("1", .vstr "x")] =
      [("id", .vint 1), ("name", .vstr "x")] := rfl

/-! ## Storage model

A query result is either rows or a driver error carrying a code string;
`isUnknownColumnError` recognises `ER_BAD_FIELD_ERROR` (route.ts 68-75). -/

structure DbErr where
  code : String
  deriving DecidableEq, Repr

def isUnknownColumnError (e : DbErr) : Bool :=
  e.code = "ER_BAD_FIELD_ERROR"

inductive RowsQuery
  | sinceAndLine (parts : List String) (sinceDateTime : String) (lineId : String)
  | sinceOnly (parts : List String) (sinceDateTime : String)
  | flatLimit (parts : List String) (limit : Nat)
  deriving DecidableEq, Repr

/-! ## Dates (`parseSince` / `toMySqlDateTime`, route.ts 77-103)

The fallback date (today minus `DEFAULT_SINCE_DAYS`, derived from the
wall clock) is passed in as a parameter. -/

def sinceDateRegexOk (s : String) : Bool :=
  match s.data with
  | [y1, y2, y3, y4, h1, m1, m2, h2, d1, d2] =>
      y1.isDigit ∧ y2.isDigit ∧ y3.isDigit ∧ y4.isDigit ∧ h1 = '-' ∧
      m1.isDigit ∧ m2.isDigit ∧ h2 = '-' ∧ d1.isDigit ∧ d2.isDigit
  | _ => false

def parseSince (rawSince : Option String) (fallback : String) : String :=
  match rawSince with
  | none => fallback
  | some s =>
      if s = "" then fallback
      else if sinceDateRegexOk s then s
      else fallback

def toMySqlDateTime (dateOnly : String) : String :=
  dateOnly ++ " 00:00:00"

/-! ## Query Builder fallback ladder (route.ts GET, lines 168-219)

The handler attempts the full query, then on an unknown-column failure
retries per the ladder; the returned list records the attempted queries
in order. -/

def FALLBACK_ROW_LIMIT : Nat := 200

structure LadderOutcome where
  rows : List Row
  appliedLineId : Option String
  appliedSince : Option String
  deriving DecidableEq, Repr

def hasLineFilterFor (lineId : Option String) : Bool :=
  match lineId with
  | some l => l ≠ ""
  | none => false

def runFallbackLadder (db : RowsQuery → Except DbErr (List Row))
    (parts : List String) (since sinceDateTime : String) (lineId : Option String) :
    List RowsQuery × Except DbErr LadderOutcome :=
  let hasLine := hasLineFilterFor lineId
  let line := lineId.getD ""
  let q1 := if hasLine then RowsQuery.sinceAndLine parts sinceDateTime line
            else RowsQuery.sinceOnly parts sinceDateTime
  match db q1 with
  | .ok rows =>
      ([q1], .ok { rows := rows,
                   appliedLineId := if hasLine then some line else none,
                   appliedSince := some since })
  | .error e =>
      if hasLine && isUnknownColumnError e then
        let q2 := RowsQuery.sinceOnly parts sinceDateTime
        match db q2 with
        | .ok rows =>
            ([q1, q2], .ok { rows := rows, appliedLineId := none,
                             appliedSince := some since })
        | .error innerError =>
            if isUnknownColumnError innerError then
              let q3 := RowsQuery.flatLimit parts FALLBACK_ROW_LIMIT
              match db q3 with
              | .ok rows =>
                  ([q1, q2, q3], .ok { rows := rows, appliedLineId := none,
                                       appliedSince := none })
              | .error e3 => ([q1, q2, q3], .error e3)
            else ([q1, q2], .error innerError)
      else if isUnknownColumnError e then
        let q3 := RowsQuery.flatLimit parts FALLBACK_ROW_LIMIT
        match db q3 with
        | .ok rows =>
            ([q1, q3], .ok { rows := rows, appliedLineId := none,
                             appliedSince := none })
        | .error e3 => ([q1, q3], .error e3)
      else ([q1], .error e)

/-! ## Row-fetch response assembly (route.ts GET, lines 149-246) -/

structure RowsResponse where
  table : String
  since : Option String
  rowCount : Nat
  columns : List String
  rows : List Row
  lineId : Option String
  deriving DecidableEq, Repr

inductive GetResult
  | listTables
  | ok (resp : RowsResponse)
  | err (status : Nat) (message : String)
  deriving DecidableEq, Repr

def joinDot : List String → String
  | [] => ""
  | [p] => p
  | p :: rest => p ++ "." ++ joinDot rest

def columnsOfRows : List Row → List String
  | [] => []
  | first :: _ => rowKeys first

def GET_handler (db : RowsQuery → Except DbErr (List Row))
    (table lineId rawSince : Option String) (fallbackSince : String) :
    List RowsQuery × GetResult :=
  match table with
  | none => ([], .listTables)
  | some t =>
    if t = "" then ([], .listTables)
    else
      let since := parseSince rawSince fallbackSince
      let sinceDateTime := toMySqlDateTime since
      match sanitizeTableIdentifier t with
      | .error (.invalidIdentifier msg) => ([], .err 400 msg)
      | .ok identifierParts =>
        let result := runFallbackLadder db identifierParts since sinceDateTime lineId
        match result.2 with
        | .error _ => (result.1, .err 500 "Failed to load table data")
        | .ok out =>
          let normalizedRows := normalizeRows out.rows
          let columns := columnsOfRows normalizedRows
          (result.1,
           .ok { table := joinDot identifierParts,
                 since := out.appliedSince,
                 rowCount := normalizedRows.length,
                 columns := columns,
                 rows := normalizedRows,
                 lineId := out.appliedLineId })

/-! ## Limit-based row fetch (unnamed variant of the route, part_000)

`parseLimit` (lines 67-79) defaults and clamps the requested limit; its
GET (lines 125-172) echoes the applied limit in the response. -/

def DEFAULT_LIMIT : Nat := 200
def MAX_LIMIT : Nat := 1000

def parseLimit (rawLimit : Option String) : Nat :=
  match rawLimit with
  | none => DEFAULT_LIMIT
  | some s =>
      if s = "" then DEFAULT_LIMIT
      else
        match jsParseInt s with
        | none => DEFAULT_LIMIT
        | some parsed =>
            if parsed < 1 then DEFAULT_LIMIT
            else min parsed.toNat MAX_LIMIT

structure LimitRowsResponse where
  table : String
  limit : Nat
  rowCount : Nat
  columns : List String
  rows : List Row
  deriving DecidableEq, Repr

inductive GetLimitResult
  | listTables
  | ok (resp : LimitRowsResponse)
  | err (status : Nat) (message : String)
  deriving DecidableEq, Repr

def GET_limitHandler (db : List String → Nat → Except DbErr (List Row))
    (table rawLimit : Option String) : GetLimitResult :=
  match table with
  | none => .listTables
  | some t =>
    if t = "" then .listTables
    else
      let limit := parseLimit rawLimit
      match sanitizeTableIdentifier t with
      | .error (.invalidIdentifier msg) => .err 400 msg
      | .ok identifierParts =>
        match db identifierParts limit with
        | .error _ => .err 500 "Failed to load table data"
        | .ok rows =>
          let normalizedRows := normalizeRows rows
          let columns := columnsOfRows normalizedRows
          .ok { table := joinDot identifierParts,
                limit := limit,
                rowCount := normalizedRows.length,
                columns := columns,
                rows := normalizedRows }

example : parseLimit (some "50") = 50 := rfl
example : parseLimit none = 200 := rfl
example : parseLimit (some "0") = 200 := rfl
example : parseLimit (some "4000") = 1000 := rfl
example : parseLimit (some "abc") = 200 := rfl

/-! ## JSON-ish values

Values reaching the update handler and the step-flow renderer; arrays
hold scalars.  `jsToString` models the JavaScript `String(value)`
conversion, `intToString` the decimal rendering of a number. -/

inductive JScalar
  | jsnull
  | jsundef
  | jsstr (s : String)
  | jsnum (n : Int)
  | jsbool (b : Bool)
  deriving DecidableEq, Repr

inductive JVal
  | jnull
  | jundef
  | jstr (s : String)
  | jnum (n : Int)
  | jbool (b : Bool)
  | jarr (elems : List JScalar)
  deriving DecidableEq, Repr

def JScalar.toJVal : JScalar → JVal
  | .jsnull => .jnull
  | .jsundef => .jundef
  | .jsstr s => .jstr s
  | .jsnum n => .jnum n
  | .jsbool b => .jbool b

def natDigitsAux : Nat → Nat → List Char
  | _, 0 => []
  | fuel, n =>
      match fuel with
      | 0 => []
      | fuel + 1 =>
          natDigitsAux fuel (n / 10) ++ [Char.ofNat ('0'.toNat + n % 10)]

def intToString (n : Int) : String :=
  match n with
  | .ofNat 0 => "0"
  | .ofNat m => String.mk (natDigitsAux m m)
  | .negSucc m => "-" ++ String.mk (natDigitsAux (m + 1) (m + 1))

example : intToString 50 = "50" := rfl
example : intToString 0 = "0" := rfl
example : intToString (-17) = "-17" := rfl

def scalarToString : JScalar → String
  | .jsnull => "null"
  | .jsundef => "undefined"
  | .jsstr s => s
  | .jsnum n => intToString n
  | .jsbool b => if b then "true" else "false"

def commaJoin : List String → String
  | [] => ""
  | [s] => s
  | s :: rest => s ++ "," ++ commaJoin rest

def jsToString : JVal → String
  | .jnull => "null"
  | .jundef => "undefined"
  | .jstr s => s
  | .jnum n => intToString n
  | .jbool b => if b then "true" else "false"
  | .jarr elems =>
      commaJoin (elems.map (fun e =>
        match e with
        | .jsnull => ""
        | .jsundef => ""
        | _ => scalarToString e))

/-! ## Row Update Service (`PATCH`, route.ts lines 293-392)

The handler validates body fields in order and, when all checks pass,
issues one UPDATE statement; an error result means no write occurred. -/

inductive TableField
  | tstr (s : String)
  | tother
  deriving DecidableEq, Repr

structure UpdateBodyUpdates where
  comment : Option JVal
  needtosend : Option JVal
  deriving DecidableEq, Repr

structure UpdateBody where
  table : Option TableField
  id : Option JVal
  updates : Option UpdateBodyUpdates
  deriving DecidableEq, Repr

inductive UpdateError
  | missingTable
  | missingId
  | idNotANumber
  | missingUpdates
  | invalidComment
  | invalidFlag
  | noFieldsProvided
  | invalidIdentifier (message : String)
  deriving DecidableEq, Repr

def isInvalidIdError : UpdateError → Bool
  | .missingId => true
  | .idNotANumber => true
  | _ => false

structure UpdateStatement where
  parts : List String
  sets : List (String × Val)
  whereId : Int
  deriving DecidableEq, Repr

inductive PatchResult
  | ok (stmt : UpdateStatement)
  | err (status : Nat) (e : UpdateError)
  deriving DecidableEq, Repr

def commentNextValues : Option JVal → Except UpdateError (List (String × Val))
  | none => .ok []
  | some (.jstr s) => .ok [("comment", Val.vstr s)]
  | some .jnull => .ok [("comment", Val.vstr "")]
  | some .jundef => .ok [("comment", Val.vstr "")]
  | some _ => .error .invalidComment

def needtosendNextValues : Option JVal → Except UpdateError (List (String × Val))
  | none => .ok []
  | some nv =>
      match jsParseInt (jsToString nv) with
      | none => .error .invalidFlag
      | some numeric =>
          if numeric = 0 ∨ numeric = 1 then .ok [("needtosend", Val.vint numeric)]
          else .error .invalidFlag

def PATCH_handler (body : UpdateBody) : PatchResult :=
  match body.table with
  | none => .err 400 .missingTable
  | some .tother => .err 400 .missingTable
  | some (.tstr t) =>
    if t = "" then .err 400 .missingTable
    else
      match body.id with
      | none => .err 400 .missingId
      | some idv =>
        if idv = .jnull ∨ idv = .jundef then .err 400 .missingId
        else
          match jsParseInt (jsToString idv) with
          | none => .err 400 .idNotANumber
          | some numericId =>
            match body.updates with
            | none => .err 400 .missingUpdates
            | some updates =>
              match commentNextValues updates.comment with
              | .error e => .err 400 e
              | .ok commentValues =>
                match needtosendNextValues updates.needtosend with
                | .error e => .err 400 e
                | .ok flagValues =>
                  let nextValues := commentValues ++ flagValues
                  if nextValues.isEmpty then .err 400 .noFieldsProvided
                  else
                    match sanitizeTableIdentifier t with
                    | .error (.invalidIdentifier msg) =>
                        .err 400 (.invalidIdentifier msg)
                    | .ok identifierParts =>
                        .ok { parts := identifierParts,
                              sets := nextValues,
                              whereId := numericId }

example :
    PATCH_handler { table := some (.tstr "sop.widgets"), id := some (.jstr "7"),
                    updates := some { comment := none, needtosend := some (.jstr "1") } } =
      .ok { parts := ["sop", "widgets"], sets := [("needtosend", .vint 1)], whereId := 7 } := rfl

example :
    PATCH_handler { table := some (.tstr "sop.widgets"), id := some (.jstr "7"),
                    updates := some { comment := none, needtosend := some (.jstr "2") } } =
      .err 400 .invalidFlag := rfl

/-! ## Step-flow synthetic column (data-table.tsx lines 160-251)

`normalizeStepValue`, `parseMetroSteps` and the step/highlight/end
computation of `renderMetroStepFlow`, up to the point where the step
pills are rendered. -/

def jsSplitCharAux (sep : Char) : List Char → List Char → List (List Char)
  | [], acc => [acc.reverse]
  | c :: rest, acc =>
      if c = sep then acc.reverse :: jsSplitCharAux sep rest []
      else jsSplitCharAux sep rest (c :: acc)

def jsSplitOnComma (s : String) : List String :=
  (jsSplitCharAux ',' s.data []).map (fun cs => String.mk cs)

def normalizeStepValue (value : JVal) : Option String :=
  match value with
  | .jnull => none
  | .jundef => none
  | v =>
      let normalized := jsTrim (jsToString v)
      if normalized = "" then none else some normalized

def parseMetroSteps (value : JVal) : List String :=
  match value with
  | .jarr elems => elems.filterMap (fun part => normalizeStepValue part.toJVal)
  | .jstr s => (jsSplitOnComma s).filterMap (fun part => normalizeStepValue (.jstr part))
  | v =>
      match normalizeStepValue v with
      | some single => [single]
      | none => []

structure StepRow where
  main_step : JVal
  metro_steps : JVal
  status : JVal
  metro_current_step : JVal
  metro_end_step : JVal
  custom_end_step : JVal
  inform_step : JVal
  deriving DecidableEq, Repr

structure StepFlow where
  highlightStep : Option String
  endStep : Option String
  steps : List String
  deriving DecidableEq, Repr

def optToList : Option String → List String
  | some s => [s]
  | none => []

def dedupFirstAux : List String → List String → List String
  | [], _ => []
  | x :: xs, seen =>
      if seen.contains x then dedupFirstAux xs seen
      else x :: dedupFirstAux xs (x :: seen)

def dedupFirst (l : List String) : List String :=
  dedupFirstAux l []

def metroStepFlow (row : StepRow) : StepFlow :=
  let mainStep := normalizeStepValue row.main_step
  let metroSteps := parseMetroSteps row.metro_steps
  let statusValue := normalizeStepValue row.status
  let metroCurrentStep := normalizeStepValue row.metro_current_step
  let metroEndStep := normalizeStepValue row.metro_end_step
  let customEndStep := normalizeStepValue row.custom_end_step
  let informStep := normalizeStepValue row.inform_step
  let highlightStep :=
    if statusValue = some "MAIN_COMPLETE" then
      match mainStep with
      | some m => some m
      | none => metroCurrentStep
    else
      match metroCurrentStep with
      | some c => some c
      | none => mainStep
  let endStep :=
    match customEndStep with
    | some c => some c
    | none => metroEndStep
  let orderedBase := optToList mainStep ++ metroSteps ++ optToList informStep
  let orderedSteps :=
    match endStep with
    | some e => if orderedBase.contains e then orderedBase else orderedBase ++ [e]
    | none => orderedBase
  { highlightStep := highlightStep,
    endStep := endStep,
    steps := dedupFirst orderedSteps }

example :
    metroStepFlow { main_step := .jstr "A", metro_steps := .jstr "B, C ,A",
                    status := .jstr "MAIN_COMPLETE", metro_current_step := .jstr "B",
                    metro_end_step := .jstr "E", custom_end_step := .jnull,
                    inform_step := .jstr "D" } =
      { highlightStep := some "A", endStep := some "E",
        steps := ["A", "B", "C", "D", "E"] } := rfl

/-! ## Browser State Controller (use-data-table.ts)

State touched by `fetchTables` and `fetchRows`.  Issuing a request bumps
the per-resource sequence counter; applying a response models the code
after the `await`s, including its `requestRef.current !== requestId`
guards and the guarded `finally` blocks. -/

structure TableOption where
  schema : Option String
  name : String
  fullName : String
  deriving DecidableEq, Repr

def DEFAULT_TABLE : String := "drone_sop_v3"

def pickPreferredTable (options : List TableOption) (previous : String) : String :=
  if options.isEmpty then ""
  else
    match options.find? (fun o => o.fullName == previous) with
    | some o => o.fullName
    | none =>
      match options.find? (fun o => o.name == previous) with
      | some o => o.fullName
      | none =>
        match options.find? (fun o => o.fullName == DEFAULT_TABLE || o.name == DEFAULT_TABLE) with
        | some o => o.fullName
        | none => ((options.head?).map TableOption.fullName).getD ""

structure RowsPayload where
  table : String
  limit : Nat
  rowCount : Nat
  columns : List String
  rows : List Row
  deriving DecidableEq, Repr

structure ControllerState where
  tables : List TableOption
  selectedTable : String
  columns : List String
  rows : List Row
  limit : Nat
  appliedLimit : Nat
  commentDrafts : List (String × String)
  commentEditing : List String
  needToSendDrafts : List (String × Nat)
  isLoadingTables : Bool
  isLoadingRows : Bool
  tableListError : Option String
  rowsError : Option String
  lastFetchedCount : Nat
  tablesRequestSeq : Nat
  rowsRequestSeq : Nat
  deriving DecidableEq, Repr

def issueTablesRequest (s : ControllerState) : ControllerState × Nat :=
  ({ s with tablesRequestSeq := s.tablesRequestSeq + 1,
            isLoadingTables := true,
            tableListError := none },
   s.tablesRequestSeq + 1)

def applyTablesResponse (s : ControllerState) (requestId : Nat)
    (result : Except String (List TableOption)) : ControllerState :=
  match result with
  | .ok nextTables =>
      if s.tablesRequestSeq ≠ requestId then s
      else
        let s1 := { s with
          tables := nextTables,
          selectedTable :=
            if s.selectedTable = "" then pickPreferredTable nextTables DEFAULT_TABLE
            else pickPreferredTable nextTables s.selectedTable }
        if s1.tablesRequestSeq = requestId then { s1 with isLoadingTables := false } else s1
  | .error message =>
      if s.tablesRequestSeq ≠ requestId then s
      else
        let s1 := { s with tableListError := some message,
                           tables := [], selectedTable := "" }
        if s1.tablesRequestSeq = requestId then { s1 with isLoadingTables := false } else s1

def issueRowsRequest (s : ControllerState) : ControllerState × Option Nat :=
  if s.selectedTable = "" then
    ({ s with columns := [], rows := [], rowsError := none, lastFetchedCount := 0 }, none)
  else
    ({ s with rowsRequestSeq := s.rowsRequestSeq + 1,
              isLoadingRows := true,
              rowsError := none },
     some (s.rowsRequestSeq + 1))

def applyRowsResponse (s : ControllerState) (requestId : Nat)
    (result : Except String RowsPayload) : ControllerState :=
  match result with
  | .ok payload =>
      if s.rowsRequestSeq ≠ requestId then s
      else
        let s1 := { s with
          columns := payload.columns,
          rows := payload.rows,
          lastFetchedCount := payload.rowCount,
          appliedLimit := payload.limit,
          commentDrafts := [],
          commentEditing := [],
          needToSendDrafts := [],
          selectedTable :=
            if payload.table ≠ "" ∧ payload.table ≠ s.selectedTable then payload.table
            else s.selectedTable }
        if s1.rowsRequestSeq = requestId then { s1 with isLoadingRows := false } else s1
  | .error message =>
      if s.rowsRequestSeq ≠ requestId then s
      else
        let s1 := { s with rowsError := some message,
                           columns := [], rows := [], lastFetchedCount := 0 }
        if s1.rowsRequestSeq = requestId then { s1 with isLoadingRows := false } else s1

/-! ## Timed save indicator (data-table.tsx lines 411-528, part_001 208-325)

A per-cell-key simulation of `beginCellIndicators`,
`finalizeCellIndicators` and the three timers.  Each timer slot stores
its scheduled fire time; `fireDueTimers` fires every due timer in
schedule order (the saving-delay timer can only precede a transition
timer, which can only precede a saved-cleanup timer). -/

def SAVING_DELAY_MS : Nat := 180
def MIN_SAVING_VISIBLE_MS : Nat := 500
def SAVED_VISIBLE_MS : Nat := 800

inductive IndicatorStatus
  | saving
  | saved
  deriving DecidableEq, Repr

structure CellIndicator where
  status : IndicatorStatus
  visibleSince : Nat
  deriving DecidableEq, Repr

inductive SaveOutcome
  | success
  | error
  deriving DecidableEq, Repr

structure IndicatorState where
  indicator : Option CellIndicator
  active : Bool
  savingDelay : Option Nat
  transition : Option (Nat × SaveOutcome)
  savedCleanup : Option Nat
  deriving DecidableEq, Repr

def initialIndicatorState : IndicatorState :=
  { indicator := none, active := false,
    savingDelay := none, transition := none, savedCleanup := none }

def beginCellIndicator (s : IndicatorState) (now : Nat) : IndicatorState :=
  { s with indicator := none,
           active := true,
           savingDelay := some (now + SAVING_DELAY_MS),
           transition := none,
           savedCleanup := none }

def savingDelayFire (s : IndicatorState) (now : Nat) : IndicatorState :=
  let s := { s with savingDelay := none }
  if s.active then
    { s with indicator := some { status := .saving, visibleSince := now } }
  else s

def runIndicatorTask (s : IndicatorState) (outcome : SaveOutcome) (now : Nat) :
    IndicatorState :=
  match outcome with
  | .success =>
      if s.active then s
      else
        { s with indicator := some { status := .saved, visibleSince := now },
                 savedCleanup := some (now + SAVED_VISIBLE_MS) }
  | .error =>
      if s.active then s
      else
        match s.indicator with
        | some i => if i.status = .saving then { s with indicator := none } else s
        | none => s

def finalizeCellIndicator (s : IndicatorState) (now : Nat) (outcome : SaveOutcome) :
    IndicatorState :=
  let s := { s with active := false,
                    savingDelay := none, transition := none, savedCleanup := none }
  match s.indicator with
  | some i =>
      if i.status = .saving then
        let wait := MIN_SAVING_VISIBLE_MS - (now - i.visibleSince)
        if 0 < wait then { s with transition := some (now + wait, outcome) }
        else runIndicatorTask s outcome now
      else runIndicatorTask s outcome now
  | none => runIndicatorTask s outcome now

def savedCleanupFire (s : IndicatorState) : IndicatorState :=
  let s := { s with savedCleanup := none }
  if s.active then s
  else
    match s.indicator with
    | some i => if i.status = .saved then { s with indicator := none } else s
    | none => s

def fireDueTimers (s : IndicatorState) (now : Nat) : IndicatorState :=
  let s1 :=
    match s.savingDelay with
    | some ts => if ts ≤ now then savingDelayFire s ts else s
    | none => s
  let s2 :=
    match s1.transition with
    | some p =>
        if p.1 ≤ now then runIndicatorTask { s1 with transition := none } p.2 p.1
        else s1
    | none => s1
  match s2.savedCleanup with
  | some ts => if ts ≤ now then savedCleanupFire s2 else s2
  | none => s2

/-- Indicator visible at time `t` for a single save on one cell key that
begins at `t0` and whose network call settles at `t1` with `outcome`
(timers due at or before `t` have fired; a timer due exactly at the
settle time fires first). -/
def observeIndicator (t0 t1 : Nat) (outcome : SaveOutcome) (t : Nat) :
    Option CellIndicator :=
  if t < t0 then none
  else
    let s1 := beginCellIndicator initialIndicatorState t0
    if t < t1 then (fireDueTimers s1 t).indicator
    else
      let s2 := fireDueTimers s1 t1
      let s3 := finalizeCellIndicator s2 t1 outcome
      (fireDueTimers s3 t).indicator

example : observeIndicator 0 100 .error 150 = none := rfl
example : observeIndicator 0 100 .success 150 = some { status := .saved, visibleSince := 100 } := rfl
example : observeIndicator 0 100 .success 100 = some { status := .saved, visibleSince := 100 } := rfl
example : observeIndicator 0 1000 .success 200 = some { status := .saving, visibleSince := 180 } := rfl
example : observeIndicator 0 300 .success 600 = some { status := .saving, visibleSince := 180 } := rfl
example : observeIndicator 0 300 .success 680 = some { status := .saved, visibleSince := 680 } := rfl
example : observeIndicator 0 300 .error 680 = none := rfl
example : observeIndicator 0 300 .success 1480 = none := rfl

/-! # Theorems -/

/-! ## C1: identifier sanitizer -/

theorem jsSplitDotAux_ne_nil (cs acc : List Char) : jsSplitDotAux cs acc ≠ [] := by
  induction cs generalizing acc with
  | nil => simp [jsSplitDotAux]
  | cons c rest ih =>
      simp only [jsSplitDotAux]
      split
      · simp
      · exact ih _

theorem jsSplitOnDot_ne_nil (s : String) : jsSplitOnDot s ≠ [] := by
  simpa [jsSplitOnDot] using jsSplitDotAux_ne_nil s.data []

/-- C1, counterexample: the input `"a."` contains an empty dot-separated
segment, yet `sanitizeTableIdentifier` succeeds (returning `["a"]`)
instead of failing with `InvalidIdentifier`: empty segments are
discarded, not rejected. -/
theorem C1_counterexample :
    (jsSplitOnDot "a.").contains "" = true ∧
      sanitizeTableIdentifier "a." = .ok ["a"] :=
  ⟨rfl, rfl⟩

/-- C1, amended: splitting on `.` and trimming each segment, the
sanitizer succeeds with exactly the trimmed segments in order when all
of them match `[A-Za-z0-9_]+`; it fails with `InvalidIdentifier`
exactly when some non-empty trimmed segment contains a character
outside that class, or when every segment trims to empty.  Empty
segments are otherwise discarded rather than rejected: whenever the
surviving (non-empty trimmed) segments all match the class, the
sanitizer succeeds with exactly those surviving segments in order. -/
theorem C1_sanitizer_amended (s : String) :
    (((jsSplitOnDot s).map jsTrim).filter (fun p => p ≠ "") ≠ [] ∧
       (∀ p ∈ ((jsSplitOnDot s).map jsTrim).filter (fun p => p ≠ ""),
          identifierPartOk p = true) →
        sanitizeTableIdentifier s =
          .ok (((jsSplitOnDot s).map jsTrim).filter (fun p => p ≠ ""))) ∧
    ((∃ msg, sanitizeTableIdentifier s = .error (.invalidIdentifier msg)) ↔
        (((jsSplitOnDot s).map jsTrim).filter (fun p => p ≠ "") = [] ∨
         ∃ p ∈ (jsSplitOnDot s).map jsTrim, p ≠ "" ∧ identifierPartOk p = false)) ∧
    ((∀ p ∈ (jsSplitOnDot s).map jsTrim, identifierPartOk p = true) →
        sanitizeTableIdentifier s = .ok ((jsSplitOnDot s).map jsTrim)) := by
  have hsucc :
      ∀ hne : ((jsSplitOnDot s).map jsTrim).filter (fun p => p ≠ "") ≠ [],
      ∀ hall : ∀ p ∈ ((jsSplitOnDot s).map jsTrim).filter (fun p => p ≠ ""),
          identifierPartOk p = true,
      sanitizeTableIdentifier s =
        .ok (((jsSplitOnDot s).map jsTrim).filter (fun p => p ≠ "")) := by
    intro hne hall
    simp only [sanitizeTableIdentifier]
    rw [if_neg (by simpa [List.isEmpty_iff] using hne),
      if_pos (by rw [List.all_eq_true]; exact hall)]
  refine ⟨fun h => hsucc h.1 h.2, ⟨?_, ?_⟩, ?_⟩
  · rintro ⟨msg, hmsg⟩
    by_cases hemp : ((jsSplitOnDot s).map jsTrim).filter (fun p => p ≠ "") = []
    · exact Or.inl hemp
    · right
      by_contra hno
      push_neg at hno
      have hall : ∀ p ∈ ((jsSplitOnDot s).map jsTrim).filter (fun p => p ≠ ""),
          identifierPartOk p = true := by
        intro p hp
        rw [List.mem_filter] at hp
        cases hok : identifierPartOk p with
        | false => exact absurd hok (hno p hp.1 (by simpa using hp.2))
        | true => rfl
      rw [hsucc hemp hall] at hmsg
      cases hmsg
  · rintro (hemp | ⟨p, hp, hpne, hpbad⟩)
    · refine ⟨"Table name is required", ?_⟩
      simp only [sanitizeTableIdentifier]
      rw [hemp]
      rfl
    · have hpmem : p ∈ ((jsSplitOnDot s).map jsTrim).filter (fun p => p ≠ "") := by
        rw [List.mem_filter]
        exact ⟨hp, by simpa using hpne⟩
      have hnotempty :
          ¬((((jsSplitOnDot s).map jsTrim).filter (fun p => p ≠ "")).isEmpty
              = true) := by
        rw [List.isEmpty_iff]
        exact List.ne_nil_of_mem hpmem
      have hnotall :
          ¬((((jsSplitOnDot s).map jsTrim).filter (fun p => p ≠ "")).all
              identifierPartOk = true) := by
        rw [List.all_eq_true]
        intro hall
        have := hall p hpmem
        rw [hpbad] at this
        exact Bool.false_ne_true this
      refine
        ⟨"Only alphanumeric characters and underscores are allowed in table names",
         ?_⟩
      simp only [sanitizeTableIdentifier]
      rw [if_neg hnotempty, if_neg hnotall]
  · intro hall
    have hne : ∀ p ∈ (jsSplitOnDot s).map jsTrim, p ≠ "" := by
      intro p hp
      have := hall p hp
      simp only [identifierPartOk, Bool.and_eq_true, decide_eq_true_eq] at this
      exact this.1
    have hfilter :
        ((jsSplitOnDot s).map jsTrim).filter (fun p => p ≠ "") =
          (jsSplitOnDot s).map jsTrim := by
      rw [List.filter_eq_self]
      intro p hp
      simpa using hne p hp
    have hnonnil : (jsSplitOnDot s).map jsTrim ≠ [] := by
      simp [jsSplitOnDot_ne_nil s]
    rw [hsucc (by rw [hfilter]; exact hnonnil)
        (fun p hp => hall p (by rwa [hfilter] at hp)), hfilter]

/-- C1, witness: the amended theorem at `"a..b"` — a mixed input whose
empty segments are discarded, succeeding with `["a", "b"]` — and at
`"sop.widgets"`, where every trimmed segment is valid. -/
theorem C1_sanitizer_amended_witness :
    sanitizeTableIdentifier "a..b" = .ok ["a", "b"] ∧
    sanitizeTableIdentifier "sop.widgets" = .ok ["sop", "widgets"] := by
  constructor
  · have h := (C1_sanitizer_amended "a..b").1 ⟨by decide, by decide⟩
    simpa using h
  · have h := (C1_sanitizer_amended "sop.widgets").2.2 (by decide)
    simpa using h

/-! ## PATCH inversion -/

theorem needtosendNextValues_some (nv : JVal) :
    needtosendNextValues (some nv) =
      match jsParseInt (jsToString nv) with
      | none => .error .invalidFlag
      | some numeric =>
          if numeric = 0 ∨ numeric = 1 then .ok [("needtosend", Val.vint numeric)]
          else .error .invalidFlag := rfl

/-- A successful `PATCH` run determines every intermediate validation
result; shared inversion lemma for the update-service claims. -/
theorem PATCH_ok_inversion (body : UpdateBody) (stmt : UpdateStatement)
    (h : PATCH_handler body = .ok stmt) :
    ∃ t idv numericId updates commentValues flagValues parts,
      body.table = some (.tstr t) ∧ t ≠ "" ∧
      body.id = some idv ∧ ¬(idv = .jnull ∨ idv = .jundef) ∧
      jsParseInt (jsToString idv) = some numericId ∧
      body.updates = some updates ∧
      commentNextValues updates.comment = .ok commentValues ∧
      needtosendNextValues updates.needtosend = .ok flagValues ∧
      commentValues ++ flagValues ≠ [] ∧
      sanitizeTableIdentifier t = .ok parts ∧
      stmt = { parts := parts, sets := commentValues ++ flagValues,
               whereId := numericId } := by
  rcases body with ⟨btable, bid, bupdates⟩
  cases btable with
  | none => simp [PATCH_handler] at h
  | some tf =>
    cases tf with
    | tother => simp [PATCH_handler] at h
    | tstr t =>
      by_cases ht : t = ""
      · simp [PATCH_handler, ht] at h
      · cases bid with
        | none => simp [PATCH_handler, ht] at h
        | some idv =>
          by_cases hid : idv = .jnull ∨ idv = .jundef
          · simp [PATCH_handler, ht, hid] at h
          · cases hpi : jsParseInt (jsToString idv) with
            | none => simp [PATCH_handler, ht, hid, hpi] at h
            | some numericId =>
              cases bupdates with
              | none => simp [PATCH_handler, ht, hid, hpi] at h
              | some updates =>
                cases hc : commentNextValues updates.comment with
                | error e => simp [PATCH_handler, ht, hid, hpi, hc] at h
                | ok commentValues =>
                  cases hn : needtosendNextValues updates.needtosend with
                  | error e => simp [PATCH_handler, ht, hid, hpi, hc, hn] at h
                  | ok flagValues =>
                    by_cases hemp : (commentValues ++ flagValues).isEmpty = true
                    · simp [PATCH_handler, ht, hid, hpi, hc, hn, hemp] at h
                    · cases hs : sanitizeTableIdentifier t with
                      | error e =>
                          cases e
                          simp [PATCH_handler, ht, hid, hpi, hc, hn, hemp, hs] at h
                      | ok parts =>
                        simp only [PATCH_handler, ht, hid, hpi, hc, hn, hemp, hs,
                          if_neg, if_false] at h
                        rw [if_neg (by simp)] at h
                        injection h with h
                        exact ⟨t, idv, numericId, updates, commentValues, flagValues,
                          parts, rfl, ht, rfl, hid, hpi, rfl, hc, hn,
                          (by simpa [List.isEmpty_iff] using hemp), hs, h.symm⟩

/-! ## C2: row-fetch fallback ladder -/

/-- C2: for a row-fetch request carrying a scope (line id) filter
against a table whose first query fails with an unknown-column error,
the handler retries with the time filter only and answers with
`lineId = null`; if that retry also fails with an unknown-column error
it retries with neither filter and answers with `lineId` and `since`
both `null`; a first-attempt or retry failure that is not an
unknown-column error propagates immediately — no further query is
attempted — as a 500 response. -/
theorem C2_fallback_ladder (db : RowsQuery → Except DbErr (List Row))
    (table : String) (parts : List String) (rawSince : Option String)
    (fallbackSince l since : String) (q1 q2 q3 : RowsQuery)
    (hsan : sanitizeTableIdentifier table = .ok parts)
    (htab : table ≠ "")
    (hl : l ≠ "")
    (hsince : since = parseSince rawSince fallbackSince)
    (hq1 : q1 = RowsQuery.sinceAndLine parts (toMySqlDateTime since) l)
    (hq2 : q2 = RowsQuery.sinceOnly parts (toMySqlDateTime since))
    (hq3 : q3 = RowsQuery.flatLimit parts FALLBACK_ROW_LIMIT) :
    (∀ e rows, db q1 = .error e → isUnknownColumnError e = true → db q2 = .ok rows →
      GET_handler db (some table) (some l) rawSince fallbackSince =
        ([q1, q2],
         .ok { table := joinDot parts, since := some since,
               rowCount := (normalizeRows rows).length,
               columns := columnsOfRows (normalizeRows rows),
               rows := normalizeRows rows, lineId := none })) ∧
    (∀ e e2 rows, db q1 = .error e → isUnknownColumnError e = true →
        db q2 = .error e2 → isUnknownColumnError e2 = true → db q3 = .ok rows →
      GET_handler db (some table) (some l) rawSince fallbackSince =
        ([q1, q2, q3],
         .ok { table := joinDot parts, since := none,
               rowCount := (normalizeRows rows).length,
               columns := columnsOfRows (normalizeRows rows),
               rows := normalizeRows rows, lineId := none })) ∧
    (∀ e, db q1 = .error e → isUnknownColumnError e = false →
      GET_handler db (some table) (some l) rawSince fallbackSince =
        ([q1], .err 500 "Failed to load table data")) ∧
    (∀ e e2, db q1 = .error e → isUnknownColumnError e = true →
        db q2 = .error e2 → isUnknownColumnError e2 = false →
      GET_handler db (some table) (some l) rawSince fallbackSince =
        ([q1, q2], .err 500 "Failed to load table data")) := by
  subst hsince hq1 hq2 hq3
  refine ⟨?_, ?_, ?_, ?_⟩
  · intro e rows h1 hu h2
    simp [GET_handler, htab, hsan, runFallbackLadder, hasLineFilterFor, hl, h1, hu, h2]
  · intro e e2 rows h1 hu h2 hu2 h3
    simp [GET_handler, htab, hsan, runFallbackLadder, hasLineFilterFor, hl, h1, hu,
      h2, hu2, h3]
  · intro e h1 hu
    simp [GET_handler, htab, hsan, runFallbackLadder, hasLineFilterFor, hl, h1, hu]
  · intro e e2 h1 hu h2 hu2
    simp [GET_handler, htab, hsan, runFallbackLadder, hasLineFilterFor, hl, h1, hu,
      h2, hu2]

/-- C2, witness: the ladder run on a concrete storage model whose table
has neither a `line_id` nor a `created_at` column — both fallbacks fire
— and on one whose failure is not an unknown-column error. -/
theorem C2_fallback_ladder_witness :
    (GET_handler
        (fun q =>
          match q with
          | .flatLimit _ _ => .ok [[("id", Val.vint 1)]]
          | _ => .error { code := "ER_BAD_FIELD_ERROR" })
        (some "sop.widgets") (some "L1") none "2024-01-01" =
      ([.sinceAndLine ["sop", "widgets"] "2024-01-01 00:00:00" "L1",
        .sinceOnly ["sop", "widgets"] "2024-01-01 00:00:00",
        .flatLimit ["sop", "widgets"] 200],
       .ok { table := "sop.widgets", since := none, rowCount := 1,
             columns := ["id"], rows := [[("id", Val.vint 1)]], lineId := none })) ∧
    (GET_handler (fun _ => .error { code := "ER_ACCESS_DENIED" })
        (some "sop.widgets") (some "L1") none "2024-01-01" =
      ([.sinceAndLine ["sop", "widgets"] "2024-01-01 00:00:00" "L1"],
       .err 500 "Failed to load table data")) := by
  constructor
  · exact (C2_fallback_ladder
      (fun q =>
        match q with
        | .flatLimit _ _ => .ok [[("id", Val.vint 1)]]
        | _ => .error { code := "ER_BAD_FIELD_ERROR" })
      "sop.widgets" ["sop", "widgets"] none "2024-01-01" "L1" "2024-01-01"
      _ _ _ rfl (by decide) (by decide) rfl rfl rfl rfl).2.1
      _ _ _ rfl rfl rfl rfl rfl
  · exact (C2_fallback_ladder
      (fun _ => .error { code := "ER_ACCESS_DENIED" })
      "sop.widgets" ["sop", "widgets"] none "2024-01-01" "L1" "2024-01-01"
      _ _ _ rfl (by decide) (by decide) rfl rfl rfl rfl).2.2.1
      _ rfl (by decide)

/-! ## C3: needtosend flag validation -/

/-- C3, counterexample: a request whose `needtosend` value `"2"` does
not parse to 0 or 1 but whose `table` field is also missing is rejected
with `MissingTable`, not with the `InvalidFlag` error the claim
promises for every such request (validation is fail-fast in field
order). -/
theorem C3_counterexample :
    PATCH_handler { table := none, id := some (.jstr "7"),
                    updates := some { comment := none,
                                      needtosend := some (.jstr "2") } } =
        .err 400 .missingTable ∧
      UpdateError.missingTable ≠ UpdateError.invalidFlag := by
  exact ⟨rfl, by decide⟩

/-- C3, amended: when `needtosend` is present, the update succeeds only
if the supplied value parses (JavaScript `parseInt` of its string form)
to exactly 0 or exactly 1, and the stored value is then that integer;
a value parsing otherwise is rejected with no write — with the 400
`InvalidFlag` error specifically whenever the request passes the
earlier table/id/updates/comment validations. -/
theorem C3_needtosend_validation (body : UpdateBody) (updates : UpdateBodyUpdates)
    (nv : JVal) (hupd : body.updates = some updates)
    (hnv : updates.needtosend = some nv) :
    (∀ stmt, PATCH_handler body = .ok stmt →
        ∃ n, jsParseInt (jsToString nv) = some n ∧ (n = 0 ∨ n = 1) ∧
          ("needtosend", Val.vint n) ∈ stmt.sets) ∧
    (∀ t idv numericId commentValues,
        body.table = some (.tstr t) → t ≠ "" →
        body.id = some idv → ¬(idv = .jnull ∨ idv = .jundef) →
        jsParseInt (jsToString idv) = some numericId →
        commentNextValues updates.comment = .ok commentValues →
        (∀ n, jsParseInt (jsToString nv) = some n → ¬(n = 0 ∨ n = 1)) →
        PATCH_handler body = .err 400 .invalidFlag) := by
  constructor
  · intro stmt hok
    obtain ⟨t, idv, numericId, updates', commentValues, flagValues, parts,
      -, -, -, -, -, hupd', -, hn, -, -, hstmt⟩ := PATCH_ok_inversion body stmt hok
    rw [hupd] at hupd'
    cases hupd'
    rw [hnv, needtosendNextValues_some] at hn
    cases hpi : jsParseInt (jsToString nv) with
    | none =>
        rw [hpi] at hn
        have hn' : (Except.error UpdateError.invalidFlag :
            Except UpdateError (List (String × Val))) = .ok flagValues := hn
        simp at hn'
    | some n =>
        rw [hpi] at hn
        have hn' : (if n = 0 ∨ n = 1 then
            (Except.ok [("needtosend", Val.vint n)] :
              Except UpdateError (List (String × Val)))
            else .error .invalidFlag) = .ok flagValues := hn
        by_cases hval : n = 0 ∨ n = 1
        · rw [if_pos hval] at hn'
          injection hn' with hn'
          refine ⟨n, rfl, hval, ?_⟩
          rw [hstmt]
          simp [← hn']
        · rw [if_neg hval] at hn'
          simp at hn'
  · intro t idv numericId commentValues htab ht hid hidv hpi hc hbad
    rcases body with ⟨btable, bid, bupdates⟩
    simp only at htab hid hupd
    subst htab hid hupd
    have hn : needtosendNextValues updates.needtosend = .error .invalidFlag := by
      rw [hnv, needtosendNextValues_some]
      cases hpn : jsParseInt (jsToString nv) with
      | none => rfl
      | some n => exact if_neg (hbad n hpn)
    simp [PATCH_handler, ht, hidv, hpi, hc, hn]

/-- C3, witness: `needtosend: "1"` on a valid request stores integer 1;
`needtosend: "2"` is rejected with `InvalidFlag`. -/
theorem C3_needtosend_validation_witness :
    (∃ n, jsParseInt (jsToString (.jstr "1")) = some n ∧ (n = 0 ∨ n = 1) ∧
        ("needtosend", Val.vint n) ∈
          [("needtosend", Val.vint 1)]) ∧
    PATCH_handler { table := some (.tstr "sop.widgets"), id := some (.jstr "7"),
                    updates := some { comment := none,
                                      needtosend := some (.jstr "2") } } =
      .err 400 .invalidFlag := by
  constructor
  · exact (C3_needtosend_validation
      { table := some (.tstr "sop.widgets"), id := some (.jstr "7"),
        updates := some { comment := none, needtosend := some (.jstr "1") } }
      { comment := none, needtosend := some (.jstr "1") } (.jstr "1") rfl rfl).1
      { parts := ["sop", "widgets"], sets := [("needtosend", Val.vint 1)],
        whereId := 7 } rfl
  · exact (C3_needtosend_validation
      { table := some (.tstr "sop.widgets"), id := some (.jstr "7"),
        updates := some { comment := none, needtosend := some (.jstr "2") } }
      { comment := none, needtosend := some (.jstr "2") } (.jstr "2") rfl rfl).2
      "sop.widgets" (.jstr "7") 7 [] rfl (by decide) rfl (by decide) rfl rfl
      (by decide)

/-! ## C4: row id validation -/

/-- C4, counterexample: a request missing both `table` and `id` fails
with `MissingTable`, not with the `InvalidId` error the claim promises
for every request with a missing or unparseable id (the table check
runs first). -/
theorem C4_counterexample :
    PATCH_handler { table := none, id := none, updates := none } =
        .err 400 .missingTable ∧
      isInvalidIdError .missingTable = false := by
  exact ⟨rfl, rfl⟩

/-- C4, amended: for every request whose `table` field is a non-empty
string, a missing (or null/undefined) id or an id whose string form
fails JavaScript integer parsing yields a 400 id error (`InvalidId`)
with no write; and whenever the update does run, its WHERE clause
targets exactly the integer the id parsed to. -/
theorem C4_id_validation (body : UpdateBody) (t : String)
    (htab : body.table = some (.tstr t)) (ht : t ≠ "") :
    (body.id = none ∨ body.id = some .jnull ∨ body.id = some .jundef →
        PATCH_handler body = .err 400 .missingId ∧
          isInvalidIdError .missingId = true) ∧
    (∀ idv, body.id = some idv → ¬(idv = .jnull ∨ idv = .jundef) →
        jsParseInt (jsToString idv) = none →
        PATCH_handler body = .err 400 .idNotANumber ∧
          isInvalidIdError .idNotANumber = true) ∧
    (∀ stmt idv, PATCH_handler body = .ok stmt → body.id = some idv →
        jsParseInt (jsToString idv) = some stmt.whereId) := by
  refine ⟨?_, ?_, ?_⟩
  · intro hid
    refine ⟨?_, rfl⟩
    rcases body with ⟨btable, bid, bupdates⟩
    simp only at htab
    subst htab
    rcases hid with h | h | h <;> simp only at h <;> subst h <;>
      simp [PATCH_handler, ht]
  · intro idv hid hidv hpi
    refine ⟨?_, rfl⟩
    rcases body with ⟨btable, bid, bupdates⟩
    simp only at htab hid
    subst htab hid
    simp [PATCH_handler, ht, hidv, hpi]
  · intro stmt idv hok hid
    obtain ⟨t', idv', numericId, updates', commentValues, flagValues, parts,
      -, -, hid', -, hpi, -, -, -, -, -, hstmt⟩ := PATCH_ok_inversion body stmt hok
    rw [hid] at hid'
    cases hid'
    rw [hpi, hstmt]

/-- C4, witness: the amended theorem at concrete requests — a
non-numeric id is rejected with the id error, and a valid request
updates exactly `WHERE id = 7`. -/
theorem C4_id_validation_witness :
    (PATCH_handler { table := some (.tstr "sop.widgets"), id := some (.jstr "abc"),
                     updates := some { comment := none,
                                       needtosend := some (.jstr "1") } } =
        .err 400 .idNotANumber ∧
      isInvalidIdError .idNotANumber = true) ∧
    jsParseInt (jsToString (.jstr "7")) =
      some ({ parts := ["sop", "widgets"], sets := [("needtosend", Val.vint 1)],
              whereId := 7 } : UpdateStatement).whereId := by
  constructor
  · exact (C4_id_validation
      { table := some (.tstr "sop.widgets"), id := some (.jstr "abc"),
        updates := some { comment := none, needtosend := some (.jstr "1") } }
      "sop.widgets" rfl (by decide)).2.1 (.jstr "abc") rfl (by decide) rfl
  · exact (C4_id_validation
      { table := some (.tstr "sop.widgets"), id := some (.jstr "7"),
        updates := some { comment := none, needtosend := some (.jstr "1") } }
      "sop.widgets" rfl (by decide)).2.2
      { parts := ["sop", "widgets"], sets := [("needtosend", Val.vint 1)],
        whereId := 7 } (.jstr "7") rfl rfl

/-! ## C10: null comment stored as empty string -/

/-- C10: a `comment` field supplied as null (or undefined) on an
otherwise valid request succeeds and stores the empty string — the SET
value is the string `""`, never SQL NULL — and after any successful
update touching `comment` the stored comment value is a string. -/
theorem C10_comment_null_stored_empty (body : UpdateBody)
    (updates : UpdateBodyUpdates) (hupd : body.updates = some updates) :
    (∀ t idv numericId parts,
        body.table = some (.tstr t) → t ≠ "" →
        body.id = some idv → ¬(idv = .jnull ∨ idv = .jundef) →
        jsParseInt (jsToString idv) = some numericId →
        (updates.comment = some .jnull ∨ updates.comment = some .jundef) →
        updates.needtosend = none →
        sanitizeTableIdentifier t = .ok parts →
        PATCH_handler body =
          .ok { parts := parts, sets := [("comment", Val.vstr "")],
                whereId := numericId }) ∧
    (∀ stmt cv, PATCH_handler body = .ok stmt → updates.comment = some cv →
        ∃ s, ("comment", Val.vstr s) ∈ stmt.sets ∧
          (cv = .jnull ∨ cv = .jundef → s = "")) := by
  constructor
  · intro t idv numericId parts htab ht hid hidv hpi hcm hns hsan
    rcases body with ⟨btable, bid, bupdates⟩
    simp only at htab hid hupd
    subst htab hid hupd
    rcases hcm with h | h <;>
      simp [PATCH_handler, ht, hidv, hpi, h, hns, hsan, commentNextValues,
        needtosendNextValues]
  · intro stmt cv hok hcv
    obtain ⟨t, idv, numericId, updates', commentValues, flagValues, parts,
      -, -, -, -, -, hupd', hc, -, -, -, hstmt⟩ := PATCH_ok_inversion body stmt hok
    rw [hupd] at hupd'
    cases hupd'
    rw [hcv] at hc
    cases cv with
    | jstr s =>
        refine ⟨s, ?_, by simp⟩
        injection hc with hc
        rw [hstmt]
        simp [← hc]
    | jnull =>
        refine ⟨"", ?_, by simp⟩
        injection hc with hc
        rw [hstmt]
        simp [← hc]
    | jundef =>
        refine ⟨"", ?_, by simp⟩
        injection hc with hc
        rw [hstmt]
        simp [← hc]
    | jnum n => cases hc
    | jbool b => cases hc
    | jarr l => cases hc

/-! ## C5: row limit applied and echoed -/

/-- C5: the requested limit — a positive integer, clamped to
`MAX_LIMIT` and defaulting to `DEFAULT_LIMIT` when absent or invalid —
is passed to storage and echoed back, with `rowCount` the number of
returned rows and `columns` the keys of the first returned row. -/
theorem C5_limit_applied_and_echoed
    (db : List String → Nat → Except DbErr (List Row))
    (table : String) (parts : List String) (rawLimit : Option String)
    (rows : List Row)
    (htab : table ≠ "")
    (hsan : sanitizeTableIdentifier table = .ok parts)
    (hdb : db parts (parseLimit rawLimit) = .ok rows) :
    GET_limitHandler db (some table) rawLimit =
      .ok { table := joinDot parts,
            limit := parseLimit rawLimit,
            rowCount := (normalizeRows rows).length,
            columns := columnsOfRows (normalizeRows rows),
            rows := normalizeRows rows } ∧
    1 ≤ parseLimit rawLimit ∧ parseLimit rawLimit ≤ MAX_LIMIT ∧
    (rawLimit = none → parseLimit rawLimit = DEFAULT_LIMIT) ∧
    (∀ s, rawLimit = some s → jsParseInt s = none →
        parseLimit rawLimit = DEFAULT_LIMIT) := by
  refine ⟨?_, ?_, ?_, ?_, ?_⟩
  · simp [GET_limitHandler, htab, hsan, hdb]
  · unfold parseLimit
    cases rawLimit with
    | none => simp [DEFAULT_LIMIT]
    | some s =>
        by_cases hs : s = ""
        · simp [hs, DEFAULT_LIMIT]
        · simp only [hs, if_false]
          cases jsParseInt s with
          | none => simp [DEFAULT_LIMIT]
          | some p =>
              by_cases hp : p < 1
              · simp [hp, DEFAULT_LIMIT]
              · simp only [hp, if_false]
                have : (1 : Int) ≤ p := by omega
                simp [MAX_LIMIT]
                omega
  · unfold parseLimit
    cases rawLimit with
    | none => simp [DEFAULT_LIMIT, MAX_LIMIT]
    | some s =>
        by_cases hs : s = ""
        · simp [hs, DEFAULT_LIMIT, MAX_LIMIT]
        · simp only [hs, if_false]
          cases jsParseInt s with
          | none => simp [DEFAULT_LIMIT, MAX_LIMIT]
          | some p =>
              by_cases hp : p < 1
              · simp [hp, DEFAULT_LIMIT, MAX_LIMIT]
              · simp only [hp, if_false]
                exact min_le_right _ _
  · intro h
    subst h
    rfl
  · intro s hs hparse
    subst hs
    simp [parseLimit, hparse]

/-- C5, witness: `GET /tables?table=sop.widgets&limit=50` against a
table with 10 actual rows returns `rowCount` 10, `columns` equal to the
keys of the first row, and `limit` echoed as 50. -/
theorem C5_limit_applied_and_echoed_witness :
    GET_limitHandler
        (fun _ _ => .ok ((List.range 10).map (fun k => [("id", Val.vint k)])))
        (some "sop.widgets") (some "50") =
      .ok { table := "sop.widgets", limit := 50, rowCount := 10,
            columns := ["id"],
            rows := (List.range 10).map (fun k => [("id", Val.vint k)]) } ∧
    parseLimit (some "50") = 50 := by
  have h := C5_limit_applied_and_echoed
    (fun _ _ => .ok ((List.range 10).map (fun k => [("id", Val.vint k)])))
    "sop.widgets" ["sop", "widgets"] (some "50")
    ((List.range 10).map (fun k => [("id", Val.vint k)]))
    (by decide) rfl rfl
  refine ⟨?_, rfl⟩
  have h1 := h.1
  rw [h1]
  rfl

/-! ## C6: response invariants and row normalization -/

theorem mem_normalizeRow (row : Row) (kv : String × Val) :
    kv ∈ normalizeRow row ↔ kv ∈ row ∧ isNumericKey kv.1 = false := by
  simp [normalizeRow, List.mem_filter]

/-- C6: row normalization drops exactly the purely-numeric keys,
altering no value and dropping no named column; and every successful
row-fetch response satisfies `rowCount = rows.length`, `columns` equal
to the key list of the first row (empty when there are no rows), with
every key of every returned row non-numeric. -/
theorem C6_response_invariants :
    (∀ (row : Row) (kv : String × Val),
        kv ∈ normalizeRow row ↔ kv ∈ row ∧ isNumericKey kv.1 = false) ∧
    (∀ (db : RowsQuery → Except DbErr (List Row))
        (table lineId rawSince : Option String) (fallbackSince : String)
        (attempts : List RowsQuery) (resp : RowsResponse),
        GET_handler db table lineId rawSince fallbackSince = (attempts, .ok resp) →
        resp.rowCount = resp.rows.length ∧
        (resp.rows = [] → resp.columns = []) ∧
        (∀ first rest, resp.rows = first :: rest → resp.columns = rowKeys first) ∧
        (∀ row ∈ resp.rows, ∀ kv ∈ row, isNumericKey kv.1 = false)) := by
  constructor
  · exact mem_normalizeRow
  · intro db table lineId rawSince fallbackSince attempts resp h
    have hresp :
        ∃ (parts : List String) (out : LadderOutcome), resp =
          { table := joinDot parts,
            since := out.appliedSince,
            rowCount := (normalizeRows out.rows).length,
            columns := columnsOfRows (normalizeRows out.rows),
            rows := normalizeRows out.rows,
            lineId := out.appliedLineId } := by
      cases table with
      | none => simp [GET_handler] at h
      | some t =>
        by_cases ht : t = ""
        · simp [GET_handler, ht] at h
        · cases hs : sanitizeTableIdentifier t with
          | error e => cases e; simp [GET_handler, ht, hs] at h
          | ok parts =>
            cases hout : (runFallbackLadder db parts
                (parseSince rawSince fallbackSince)
                (toMySqlDateTime (parseSince rawSince fallbackSince)) lineId).2 with
            | error e => simp [GET_handler, ht, hs, hout] at h
            | ok out =>
                simp only [GET_handler, ht, hs, hout, if_neg] at h
                rw [if_neg (fun f => f)] at h
                exact ⟨parts, out, (GetResult.ok.inj (congrArg Prod.snd h)).symm⟩
    obtain ⟨parts, out, hresp⟩ := hresp
    subst hresp
    refine ⟨rfl, ?_, ?_, ?_⟩
    · intro hnil
      have hnil' : normalizeRows out.rows = [] := hnil
      simp only [columnsOfRows]
      rw [hnil']
    · intro first rest hcons
      have hcons' : normalizeRows out.rows = first :: rest := hcons
      simp only [columnsOfRows]
      rw [hcons']
    · intro row hrow kv hkv
      simp only [normalizeRows, List.mem_map] at hrow
      obtain ⟨raw, -, hraw⟩ := hrow
      rw [← hraw] at hkv
      exact ((mem_normalizeRow raw kv).mp hkv).2

/-- C6, witness: a concrete fetch whose raw row carries the numeric
artifact key `"0"`; the response satisfies the invariants with the
artifact dropped. -/
theorem C6_response_invariants_witness :
    ({ table := "sop.widgets", since := some "2024-01-01", rowCount := 1,
       columns := ["id"], rows := [[("id", Val.vint 1)]],
       lineId := none } : RowsResponse).rowCount
        = [[("id", Val.vint 1)]].length ∧
      (["id"] : List String) = rowKeys [("id", Val.vint 1)] := by
  have h := (C6_response_invariants).2
    (fun _ => .ok [[("id", Val.vint 1), ("0", Val.vint 7)]])
    (some "sop.widgets") none none "2024-01-01"
    [.sinceOnly ["sop", "widgets"] "2024-01-01 00:00:00"]
    { table := "sop.widgets", since := some "2024-01-01", rowCount := 1,
      columns := ["id"], rows := [[("id", Val.vint 1)]], lineId := none }
    rfl
  exact ⟨h.1, h.2.2.1 _ _ rfl⟩

/-! ## C7: step-flow synthetic column -/

theorem mem_dedupFirstAux (l seen : List String) (x : String)
    (h : x ∈ dedupFirstAux l seen) : x ∈ l ∧ seen.contains x = false := by
  induction l generalizing seen with
  | nil => cases h
  | cons y ys ih =>
      simp only [dedupFirstAux] at h
      by_cases hy : seen.contains y = true
      · rw [if_pos hy] at h
        obtain ⟨h1, h2⟩ := ih seen h
        exact ⟨List.mem_cons_of_mem y h1, h2⟩
      · rw [if_neg hy] at h
        rcases List.mem_cons.mp h with h | h
        · subst h
          exact ⟨List.mem_cons_self x ys, Bool.eq_false_iff.mpr hy⟩
        · obtain ⟨h1, h2⟩ := ih (y :: seen) h
          refine ⟨List.mem_cons_of_mem y h1, ?_⟩
          simp only [List.contains_cons, Bool.or_eq_false_iff] at h2
          exact h2.2

theorem dedupFirstAux_nodup (l seen : List String) :
    (dedupFirstAux l seen).Nodup := by
  induction l generalizing seen with
  | nil => exact List.nodup_nil
  | cons y ys ih =>
      simp only [dedupFirstAux]
      by_cases hy : seen.contains y = true
      · rw [if_pos hy]
        exact ih seen
      · rw [if_neg hy]
        refine List.Nodup.cons ?_ (ih (y :: seen))
        intro hmem
        have := (mem_dedupFirstAux ys (y :: seen) y hmem).2
        simp at this

theorem dedupFirstAux_sublist (l seen : List String) :
    List.Sublist (dedupFirstAux l seen) l := by
  induction l generalizing seen with
  | nil => exact List.Sublist.refl []
  | cons y ys ih =>
      simp only [dedupFirstAux]
      by_cases hy : seen.contains y = true
      · rw [if_pos hy]
        exact List.Sublist.cons y (ih seen)
      · rw [if_neg hy]
        exact List.Sublist.cons₂ y (ih (y :: seen))

theorem dedupFirstAux_append_elem (a : String) (l seen : List String)
    (h : a ∈ l ∨ seen.contains a = true) :
    dedupFirstAux (l ++ [a]) seen = dedupFirstAux l seen := by
  induction l generalizing seen with
  | nil =>
      rcases h with h | h
      · cases h
      · rw [List.nil_append]
        simp only [dedupFirstAux]
        rw [if_pos h]
  | cons x xs ih =>
      rw [List.cons_append]
      simp only [dedupFirstAux]
      by_cases hx : seen.contains x = true
      · rw [if_pos hx, if_pos hx]
        apply ih
        rcases h with h | h
        · rcases List.mem_cons.mp h with h | h
          · subst h
            exact Or.inr hx
          · exact Or.inl h
        · exact Or.inr h
      · rw [if_neg hx, if_neg hx]
        congr 1
        apply ih
        rcases h with h | h
        · rcases List.mem_cons.mp h with h | h
          · subst h
            right
            simp
          · exact Or.inl h
        · right
          have ha : a ∈ seen := List.mem_of_elem_eq_true h
          simp [ha]

theorem dedupFirst_endStep_concat (base : List String) (endOpt : Option String) :
    dedupFirst
      (match endOpt with
       | some e => if base.contains e then base else base ++ [e]
       | none => base) =
      dedupFirst (base ++ optToList endOpt) := by
  cases endOpt with
  | none => simp [optToList]
  | some e =>
      simp only [optToList]
      by_cases hin : base.contains e = true
      · rw [if_pos hin]
        unfold dedupFirst
        rw [dedupFirstAux_append_elem e base []
          (Or.inl (List.mem_of_elem_eq_true hin))]
      · rw [if_neg hin]

/-- C7: for a row whose step fields carry a main step `m` and a current
step `c`, the synthetic step-flow column highlights `c`, except that a
`MAIN_COMPLETE` status highlights `m` instead; its end step is the
custom end step when present, else the configured end step; and its
rendered sequence is the concatenation of main step, intermediate
steps, inform step and end step with duplicates removed preserving
first occurrence — hence duplicate-free and a subsequence of that
concatenation. -/
theorem C7_step_flow (row : StepRow) (m c : String)
    (hmain : normalizeStepValue row.main_step = some m)
    (hcur : normalizeStepValue row.metro_current_step = some c) :
    (metroStepFlow row).highlightStep =
      (if normalizeStepValue row.status = some "MAIN_COMPLETE"
       then some m else some c) ∧
    (metroStepFlow row).endStep =
      (match normalizeStepValue row.custom_end_step with
       | some e => some e
       | none => normalizeStepValue row.metro_end_step) ∧
    (metroStepFlow row).steps =
      dedupFirst ([m] ++ parseMetroSteps row.metro_steps ++
        optToList (normalizeStepValue row.inform_step) ++
        optToList (metroStepFlow row).endStep) ∧
    ((metroStepFlow row).steps).Nodup ∧
    List.Sublist (metroStepFlow row).steps
      ([m] ++ parseMetroSteps row.metro_steps ++
        optToList (normalizeStepValue row.inform_step) ++
        optToList (metroStepFlow row).endStep) := by
  have hhi : (metroStepFlow row).highlightStep =
      (if normalizeStepValue row.status = some "MAIN_COMPLETE"
       then some m else some c) := by
    simp only [metroStepFlow, hmain, hcur]
  have hend : (metroStepFlow row).endStep =
      (match normalizeStepValue row.custom_end_step with
       | some e => some e
       | none => normalizeStepValue row.metro_end_step) := by
    simp only [metroStepFlow]
  have hsteps0 : (metroStepFlow row).steps =
      dedupFirst
        (match (metroStepFlow row).endStep with
         | some e =>
             if (optToList (normalizeStepValue row.main_step) ++
                 parseMetroSteps row.metro_steps ++
                 optToList (normalizeStepValue row.inform_step)).contains e
             then optToList (normalizeStepValue row.main_step) ++
                 parseMetroSteps row.metro_steps ++
                 optToList (normalizeStepValue row.inform_step)
             else (optToList (normalizeStepValue row.main_step) ++
                 parseMetroSteps row.metro_steps ++
                 optToList (normalizeStepValue row.inform_step)) ++ [e]
         | none => optToList (normalizeStepValue row.main_step) ++
             parseMetroSteps row.metro_steps ++
             optToList (normalizeStepValue row.inform_step)) := rfl
  have hsteps : (metroStepFlow row).steps =
      dedupFirst ([m] ++ parseMetroSteps row.metro_steps ++
        optToList (normalizeStepValue row.inform_step) ++
        optToList (metroStepFlow row).endStep) := by
    rw [hsteps0, dedupFirst_endStep_concat, hmain]
    rfl
  refine ⟨hhi, hend, hsteps, ?_, ?_⟩
  · rw [hsteps]
    exact dedupFirstAux_nodup _ []
  · rw [hsteps]
    exact dedupFirstAux_sublist _ []

/-- C7, witness: the step-flow theorem at a concrete row with status
`MAIN_COMPLETE` — the main step is highlighted and the configured end
step closes the deduplicated sequence. -/
theorem C7_step_flow_witness :
    (metroStepFlow { main_step := .jstr "A", metro_steps := .jstr "B,C,A",
                     status := .jstr "MAIN_COMPLETE", metro_current_step := .jstr "B",
                     metro_end_step := .jstr "E", custom_end_step := .jnull,
                     inform_step := .jstr "D" }).highlightStep = some "A" ∧
    (metroStepFlow { main_step := .jstr "A", metro_steps := .jstr "B,C,A",
                     status := .jstr "MAIN_COMPLETE", metro_current_step := .jstr "B",
                     metro_end_step := .jstr "E", custom_end_step := .jnull,
                     inform_step := .jstr "D" }).steps.Nodup := by
  have h := C7_step_flow
    { main_step := .jstr "A", metro_steps := .jstr "B,C,A",
      status := .jstr "MAIN_COMPLETE", metro_current_step := .jstr "B",
      metro_end_step := .jstr "E", custom_end_step := .jnull,
      inform_step := .jstr "D" } "A" "B" rfl rfl
  refine ⟨?_, h.2.2.2.1⟩
  rw [h.1]
  rfl

/-! ## C8: last-request-wins sequencing -/

/-- C8: issuing a table-list or row fetch bumps that resource's
sequence counter, and a response whose sequence number is no longer the
latest issued for its resource leaves the controller state — tables,
selectedTable, columns, rows, errors, loading flags, everything —
completely unchanged, whether the response was a success or a failure. -/
theorem C8_stale_responses_discarded :
    (∀ (s : ControllerState) (requestId : Nat)
        (result : Except String (List TableOption)),
        requestId ≠ s.tablesRequestSeq →
        applyTablesResponse s requestId result = s) ∧
    (∀ (s : ControllerState) (requestId : Nat)
        (result : Except String RowsPayload),
        requestId ≠ s.rowsRequestSeq →
        applyRowsResponse s requestId result = s) ∧
    (∀ s : ControllerState,
        (issueTablesRequest s).2 = s.tablesRequestSeq + 1 ∧
        (issueTablesRequest s).1.tablesRequestSeq = s.tablesRequestSeq + 1) ∧
    (∀ (s : ControllerState) (rid : Nat),
        (issueRowsRequest s).2 = some rid →
        rid = s.rowsRequestSeq + 1 ∧
        (issueRowsRequest s).1.rowsRequestSeq = s.rowsRequestSeq + 1) := by
  refine ⟨?_, ?_, ?_, ?_⟩
  · intro s requestId result h
    cases result with
    | ok v =>
        simp only [applyTablesResponse]
        rw [if_pos (Ne.symm h)]
    | error m =>
        simp only [applyTablesResponse]
        rw [if_pos (Ne.symm h)]
  · intro s requestId result h
    cases result with
    | ok v =>
        simp only [applyRowsResponse]
        rw [if_pos (Ne.symm h)]
    | error m =>
        simp only [applyRowsResponse]
        rw [if_pos (Ne.symm h)]
  · intro s
    exact ⟨rfl, rfl⟩
  · intro s rid h
    simp only [issueRowsRequest] at h ⊢
    by_cases hsel : s.selectedTable = ""
    · rw [if_pos hsel] at h
      cases h
    · rw [if_neg hsel] at h
      rw [if_neg hsel]
      exact ⟨(Option.some.inj h).symm, rfl⟩

/-- A controller state whose latest issued sequence number is 2 for
both resources. -/
def staleDemoState : ControllerState :=
  { tables := [], selectedTable := "drone_sop_v3", columns := [], rows := [],
    limit := 200, appliedLimit := 200, commentDrafts := [], commentEditing := [],
    needToSendDrafts := [], isLoadingTables := true, isLoadingRows := true,
    tableListError := none, rowsError := none, lastFetchedCount := 0,
    tablesRequestSeq := 2, rowsRequestSeq := 2 }

/-- C8, witness: a response tagged with superseded sequence number 1
leaves the state with latest sequence number 2 untouched, for both
resources. -/
theorem C8_stale_responses_discarded_witness :
    applyTablesResponse staleDemoState 1
        (.ok [{ schema := some "sop", name := "widgets",
                fullName := "sop.widgets" }]) = staleDemoState ∧
    applyRowsResponse staleDemoState 1 (.error "network down") = staleDemoState :=
  ⟨C8_stale_responses_discarded.1 staleDemoState 1 _ (by decide),
   C8_stale_responses_discarded.2.1 staleDemoState 1 _ (by decide)⟩

/-! ## C9: save-indicator timing -/

theorem obs_before (t0 t1 : Nat) (o : SaveOutcome) (t : Nat) (h : t < t0) :
    observeIndicator t0 t1 o t = none := by
  simp only [observeIndicator]
  rw [if_pos h]

theorem obs_running (t0 t1 : Nat) (o : SaveOutcome) (t : Nat)
    (h0 : ¬ t < t0) (hA : t < t1) :
    observeIndicator t0 t1 o t =
      if t0 + SAVING_DELAY_MS ≤ t
      then some { status := .saving, visibleSince := t0 + SAVING_DELAY_MS }
      else none := by
  simp only [observeIndicator]
  rw [if_neg h0, if_pos hA]
  by_cases hts : t0 + SAVING_DELAY_MS ≤ t
  · simp [beginCellIndicator, initialIndicatorState, fireDueTimers,
      savingDelayFire, hts]
  · simp [beginCellIndicator, initialIndicatorState, fireDueTimers,
      savingDelayFire, hts]

theorem obs_settled (t0 t1 : Nat) (o : SaveOutcome) (t : Nat)
    (h0 : ¬ t < t0) (hB : ¬ t < t1) :
    observeIndicator t0 t1 o t =
      (fireDueTimers
        (finalizeCellIndicator
          (fireDueTimers (beginCellIndicator initialIndicatorState t0) t1) t1 o)
        t).indicator := by
  simp only [observeIndicator]
  rw [if_neg h0, if_neg hB]

theorem fireDue_begin_slow (t0 t1 : Nat) (h : t0 + SAVING_DELAY_MS ≤ t1) :
    fireDueTimers (beginCellIndicator initialIndicatorState t0) t1 =
      { indicator := some { status := .saving, visibleSince := t0 + SAVING_DELAY_MS },
        active := true, savingDelay := none, transition := none,
        savedCleanup := none } := by
  simp [beginCellIndicator, initialIndicatorState, fireDueTimers, savingDelayFire, h]

theorem fireDue_begin_fast (t0 t1 : Nat) (h : ¬ (t0 + SAVING_DELAY_MS ≤ t1)) :
    fireDueTimers (beginCellIndicator initialIndicatorState t0) t1 =
      { indicator := none, active := true,
        savingDelay := some (t0 + SAVING_DELAY_MS), transition := none,
        savedCleanup := none } := by
  simp [beginCellIndicator, initialIndicatorState, fireDueTimers, savingDelayFire, h]

theorem finalize_saving_wait (ts t1 : Nat) (o : SaveOutcome)
    (hle : ts ≤ t1) (hwait : t1 < ts + MIN_SAVING_VISIBLE_MS) :
    finalizeCellIndicator
        { indicator := some { status := .saving, visibleSince := ts },
          active := true, savingDelay := none, transition := none,
          savedCleanup := none } t1 o =
      { indicator := some { status := .saving, visibleSince := ts },
        active := false, savingDelay := none,
        transition := some (ts + MIN_SAVING_VISIBLE_MS, o),
        savedCleanup := none } := by
  have h1 : 0 < MIN_SAVING_VISIBLE_MS - (t1 - ts) := by
    simp only [MIN_SAVING_VISIBLE_MS] at *
    omega
  have h2 : t1 + (MIN_SAVING_VISIBLE_MS - (t1 - ts)) = ts + MIN_SAVING_VISIBLE_MS := by
    simp only [MIN_SAVING_VISIBLE_MS] at *
    omega
  simp [finalizeCellIndicator, h1, h2]

theorem finalize_saving_late_success (ts t1 : Nat)
    (hlate : ts + MIN_SAVING_VISIBLE_MS ≤ t1) :
    finalizeCellIndicator
        { indicator := some { status := .saving, visibleSince := ts },
          active := true, savingDelay := none, transition := none,
          savedCleanup := none } t1 .success =
      { indicator := some { status := .saved, visibleSince := t1 }, active := false,
        savingDelay := none, transition := none,
        savedCleanup := some (t1 + SAVED_VISIBLE_MS) } := by
  have h1 : ¬ (0 < MIN_SAVING_VISIBLE_MS - (t1 - ts)) := by
    simp only [MIN_SAVING_VISIBLE_MS] at *
    omega
  simp [finalizeCellIndicator, runIndicatorTask, h1]

theorem finalize_saving_late_error (ts t1 : Nat)
    (hlate : ts + MIN_SAVING_VISIBLE_MS ≤ t1) :
    finalizeCellIndicator
        { indicator := some { status := .saving, visibleSince := ts },
          active := true, savingDelay := none, transition := none,
          savedCleanup := none } t1 .error =
      { indicator := none, active := false, savingDelay := none, transition := none,
        savedCleanup := none } := by
  have h1 : ¬ (0 < MIN_SAVING_VISIBLE_MS - (t1 - ts)) := by
    simp only [MIN_SAVING_VISIBLE_MS] at *
    omega
  simp [finalizeCellIndicator, runIndicatorTask, h1]

theorem finalize_none_success (t1 : Nat) (sd : Option Nat) :
    finalizeCellIndicator
        { indicator := none, active := true, savingDelay := sd, transition := none,
          savedCleanup := none } t1 .success =
      { indicator := some { status := .saved, visibleSince := t1 }, active := false,
        savingDelay := none, transition := none,
        savedCleanup := some (t1 + SAVED_VISIBLE_MS) } := by
  simp [finalizeCellIndicator, runIndicatorTask]

theorem finalize_none_error (t1 : Nat) (sd : Option Nat) :
    finalizeCellIndicator
        { indicator := none, active := true, savingDelay := sd, transition := none,
          savedCleanup := none } t1 .error =
      { indicator := none, active := false, savingDelay := none, transition := none,
        savedCleanup := none } := by
  simp [finalizeCellIndicator, runIndicatorTask]

theorem fireDue_transition_pending (ts T : Nat) (o : SaveOutcome) (t : Nat)
    (h : ¬ (T ≤ t)) :
    fireDueTimers
        { indicator := some { status := .saving, visibleSince := ts },
          active := false, savingDelay := none, transition := some (T, o),
          savedCleanup := none } t =
      { indicator := some { status := .saving, visibleSince := ts },
        active := false, savingDelay := none, transition := some (T, o),
        savedCleanup := none } := by
  simp [fireDueTimers, h]

theorem fireDue_transition_success (ts T t : Nat)
    (hT : T ≤ t) (hkeep : ¬ (T + SAVED_VISIBLE_MS ≤ t)) :
    fireDueTimers
        { indicator := some { status := .saving, visibleSince := ts },
          active := false, savingDelay := none, transition := some (T, .success),
          savedCleanup := none } t =
      { indicator := some { status := .saved, visibleSince := T }, active := false,
        savingDelay := none, transition := none,
        savedCleanup := some (T + SAVED_VISIBLE_MS) } := by
  simp [fireDueTimers, runIndicatorTask, hT, hkeep]

theorem fireDue_transition_success_cleanup (ts T t : Nat)
    (hT : T ≤ t) (hcl : T + SAVED_VISIBLE_MS ≤ t) :
    fireDueTimers
        { indicator := some { status := .saving, visibleSince := ts },
          active := false, savingDelay := none, transition := some (T, .success),
          savedCleanup := none } t =
      { indicator := none, active := false, savingDelay := none, transition := none,
        savedCleanup := none } := by
  simp [fireDueTimers, runIndicatorTask, savedCleanupFire, hT, hcl]

theorem fireDue_transition_error (ts T t : Nat) (hT : T ≤ t) :
    fireDueTimers
        { indicator := some { status := .saving, visibleSince := ts },
          active := false, savingDelay := none, transition := some (T, .error),
          savedCleanup := none } t =
      { indicator := none, active := false, savingDelay := none, transition := none,
        savedCleanup := none } := by
  simp [fireDueTimers, runIndicatorTask, hT]

theorem fireDue_saved_keep (τ c t : Nat) (h : ¬ (c ≤ t)) :
    fireDueTimers
        { indicator := some { status := .saved, visibleSince := τ }, active := false,
          savingDelay := none, transition := none, savedCleanup := some c } t =
      { indicator := some { status := .saved, visibleSince := τ }, active := false,
        savingDelay := none, transition := none, savedCleanup := some c } := by
  simp [fireDueTimers, h]

theorem fireDue_saved_cleanup (τ c t : Nat) (h : c ≤ t) :
    fireDueTimers
        { indicator := some { status := .saved, visibleSince := τ }, active := false,
          savingDelay := none, transition := none, savedCleanup := some c } t =
      { indicator := none, active := false, savingDelay := none, transition := none,
        savedCleanup := none } := by
  simp [fireDueTimers, savedCleanupFire, h]

theorem fireDue_inert (t : Nat) :
    fireDueTimers
        { indicator := none, active := false, savingDelay := none, transition := none,
          savedCleanup := none } t =
      { indicator := none, active := false, savingDelay := none, transition := none,
        savedCleanup := none } := by
  simp [fireDueTimers]

/-- C9: for a single save on a cell key beginning at `t0` and settling
at `t1`: a save settling before the saving-delay threshold never shows
a "saving" indicator at any observation time; a save settling after it
shows "saving" from the delay onward and keeps it visible for at least
the configured minimum before it is replaced — by "saved" on success,
itself auto-removed after its fixed visible duration, or by plain
removal, with "saved" never shown, on error. -/
theorem C9_indicator_timing (t0 t1 : Nat) (outcome : SaveOutcome)
    (h01 : t0 ≤ t1) :
    (t1 < t0 + SAVING_DELAY_MS →
        ∀ t, (observeIndicator t0 t1 outcome t).map CellIndicator.status ≠
          some .saving) ∧
    (t0 + SAVING_DELAY_MS < t1 →
        (∀ t, t0 + SAVING_DELAY_MS ≤ t →
            t < max t1 (t0 + SAVING_DELAY_MS + MIN_SAVING_VISIBLE_MS) →
            observeIndicator t0 t1 outcome t =
              some { status := .saving, visibleSince := t0 + SAVING_DELAY_MS }) ∧
        (outcome = .success →
            observeIndicator t0 t1 outcome
                (max t1 (t0 + SAVING_DELAY_MS + MIN_SAVING_VISIBLE_MS)) =
              some { status := .saved,
                     visibleSince :=
                       max t1 (t0 + SAVING_DELAY_MS + MIN_SAVING_VISIBLE_MS) } ∧
            observeIndicator t0 t1 outcome
                (max t1 (t0 + SAVING_DELAY_MS + MIN_SAVING_VISIBLE_MS) +
                  SAVED_VISIBLE_MS) = none) ∧
        (outcome = .error →
            observeIndicator t0 t1 outcome
                (max t1 (t0 + SAVING_DELAY_MS + MIN_SAVING_VISIBLE_MS)) = none ∧
            ∀ t, (observeIndicator t0 t1 outcome t).map CellIndicator.status ≠
              some .saved)) := by
  constructor
  · intro hfast t
    by_cases h0 : t < t0
    · rw [obs_before t0 t1 outcome t h0]
      simp
    · by_cases hA : t < t1
      · rw [obs_running t0 t1 outcome t h0 hA, if_neg (by omega)]
        simp
      · rw [obs_settled t0 t1 outcome t h0 hA,
          fireDue_begin_fast t0 t1 (by omega)]
        cases outcome with
        | success =>
            rw [finalize_none_success t1 (some (t0 + SAVING_DELAY_MS))]
            by_cases hcl : t1 + SAVED_VISIBLE_MS ≤ t
            · rw [fireDue_saved_cleanup t1 (t1 + SAVED_VISIBLE_MS) t hcl]
              simp
            · rw [fireDue_saved_keep t1 (t1 + SAVED_VISIBLE_MS) t hcl]
              simp
        | error =>
            rw [finalize_none_error t1 (some (t0 + SAVING_DELAY_MS)), fireDue_inert]
            simp
  · intro hslow
    refine ⟨?_, ?_, ?_⟩
    · intro t hts hT
      by_cases hA : t < t1
      · rw [obs_running t0 t1 outcome t (by omega) hA, if_pos hts]
      · have hX : t < t0 + SAVING_DELAY_MS + MIN_SAVING_VISIBLE_MS := by
          rcases lt_max_iff.mp hT with h | h
          · omega
          · exact h
        rw [obs_settled t0 t1 outcome t (by omega) hA,
          fireDue_begin_slow t0 t1 (by omega),
          finalize_saving_wait (t0 + SAVING_DELAY_MS) t1 outcome (by omega)
            (by omega),
          fireDue_transition_pending (t0 + SAVING_DELAY_MS)
            (t0 + SAVING_DELAY_MS + MIN_SAVING_VISIBLE_MS) outcome t (by omega)]
    · intro hsucc
      subst hsucc
      constructor
      · by_cases hw : t1 < t0 + SAVING_DELAY_MS + MIN_SAVING_VISIBLE_MS
        · rw [max_eq_right (by omega : t1 ≤ t0 + SAVING_DELAY_MS + MIN_SAVING_VISIBLE_MS)]
          rw [obs_settled t0 t1 .success _ (by omega) (by omega),
            fireDue_begin_slow t0 t1 (by omega),
            finalize_saving_wait (t0 + SAVING_DELAY_MS) t1 .success (by omega) hw,
            fireDue_transition_success (t0 + SAVING_DELAY_MS)
              (t0 + SAVING_DELAY_MS + MIN_SAVING_VISIBLE_MS)
              (t0 + SAVING_DELAY_MS + MIN_SAVING_VISIBLE_MS) (le_refl _)
              (by simp [SAVED_VISIBLE_MS])]
        · rw [max_eq_left (by omega : t0 + SAVING_DELAY_MS + MIN_SAVING_VISIBLE_MS ≤ t1)]
          rw [obs_settled t0 t1 .success t1 (by omega) (by omega),
            fireDue_begin_slow t0 t1 (by omega),
            finalize_saving_late_success (t0 + SAVING_DELAY_MS) t1 (by omega),
            fireDue_saved_keep t1 (t1 + SAVED_VISIBLE_MS) t1
              (by simp [SAVED_VISIBLE_MS])]
      · by_cases hw : t1 < t0 + SAVING_DELAY_MS + MIN_SAVING_VISIBLE_MS
        · rw [max_eq_right (by omega : t1 ≤ t0 + SAVING_DELAY_MS + MIN_SAVING_VISIBLE_MS)]
          rw [obs_settled t0 t1 .success _ (by omega) (by omega),
            fireDue_begin_slow t0 t1 (by omega),
            finalize_saving_wait (t0 + SAVING_DELAY_MS) t1 .success (by omega) hw,
            fireDue_transition_success_cleanup (t0 + SAVING_DELAY_MS)
              (t0 + SAVING_DELAY_MS + MIN_SAVING_VISIBLE_MS) _ (by omega) (le_refl _)]
        · rw [max_eq_left (by omega : t0 + SAVING_DELAY_MS + MIN_SAVING_VISIBLE_MS ≤ t1)]
          rw [obs_settled t0 t1 .success _ (by omega) (by omega),
            fireDue_begin_slow t0 t1 (by omega),
            finalize_saving_late_success (t0 + SAVING_DELAY_MS) t1 (by omega),
            fireDue_saved_cleanup t1 (t1 + SAVED_VISIBLE_MS) _ (le_refl _)]
    · intro herr
      subst herr
      constructor
      · by_cases hw : t1 < t0 + SAVING_DELAY_MS + MIN_SAVING_VISIBLE_MS
        · rw [max_eq_right (by omega : t1 ≤ t0 + SAVING_DELAY_MS + MIN_SAVING_VISIBLE_MS)]
          rw [obs_settled t0 t1 .error _ (by omega) (by omega),
            fireDue_begin_slow t0 t1 (by omega),
            finalize_saving_wait (t0 + SAVING_DELAY_MS) t1 .error (by omega) hw,
            fireDue_transition_error (t0 + SAVING_DELAY_MS)
              (t0 + SAVING_DELAY_MS + MIN_SAVING_VISIBLE_MS) _ (le_refl _)]
        · rw [max_eq_left (by omega : t0 + SAVING_DELAY_MS + MIN_SAVING_VISIBLE_MS ≤ t1)]
          rw [obs_settled t0 t1 .error t1 (by omega) (by omega),
            fireDue_begin_slow t0 t1 (by omega),
            finalize_saving_late_error (t0 + SAVING_DELAY_MS) t1 (by omega),
            fireDue_inert]
      · intro t
        by_cases h0 : t < t0
        · rw [obs_before t0 t1 .error t h0]
          simp
        · by_cases hA : t < t1
          · rw [obs_running t0 t1 .error t h0 hA]
            by_cases hts : t0 + SAVING_DELAY_MS ≤ t
            · rw [if_pos hts]
              simp
            · rw [if_neg hts]
              simp
          · rw [obs_settled t0 t1 .error t h0 hA,
              fireDue_begin_slow t0 t1 (by omega)]
            by_cases hw : t1 < t0 + SAVING_DELAY_MS + MIN_SAVING_VISIBLE_MS
            · rw [finalize_saving_wait (t0 + SAVING_DELAY_MS) t1 .error (by omega) hw]
              by_cases hTt : t0 + SAVING_DELAY_MS + MIN_SAVING_VISIBLE_MS ≤ t
              · rw [fireDue_transition_error (t0 + SAVING_DELAY_MS)
                  (t0 + SAVING_DELAY_MS + MIN_SAVING_VISIBLE_MS) t hTt]
                simp
              · rw [fireDue_transition_pending (t0 + SAVING_DELAY_MS)
                  (t0 + SAVING_DELAY_MS + MIN_SAVING_VISIBLE_MS) .error t hTt]
                simp
            · rw [finalize_saving_late_error (t0 + SAVING_DELAY_MS) t1 (by omega),
                fireDue_inert]
              simp

/-- C9, witness: a save starting at 0 settling at 1000 — "saving" shows
at 200 with `visibleSince` 180, "saved" shows at the settle time, and a
save settling at 100 (before the 180 ms delay) never shows "saving". -/
theorem C9_indicator_timing_witness :
    observeIndicator 0 1000 .success 200 =
        some { status := .saving, visibleSince := 180 } ∧
    observeIndicator 0 1000 .success 1000 =
        some { status := .saved, visibleSince := 1000 } ∧
    (observeIndicator 0 100 .error 500).map CellIndicator.status ≠
        some .saving := by
  refine ⟨?_, ?_, ?_⟩
  · have h := ((C9_indicator_timing 0 1000 .success (by decide)).2 (by decide)).1
      200 (by decide) (by decide)
    simpa using h
  · have h := (((C9_indicator_timing 0 1000 .success (by decide)).2
      (by decide)).2.1 rfl).1
    simpa using h
  · exact (C9_indicator_timing 0 100 .error (by decide)).1 (by decide) 500

/-- C10, witness: `{table: "sop.widgets", id: "7", updates:
{comment: null}}` succeeds and stores `comment = ""`. -/
theorem C10_comment_null_stored_empty_witness :
    PATCH_handler { table := some (.tstr "sop.widgets"), id := some (.jstr "7"),
                    updates := some { comment := some .jnull, needtosend := none } } =
      .ok { parts := ["sop", "widgets"], sets := [("comment", Val.vstr "")],
            whereId := 7 } := by
  exact (C10_comment_null_stored_empty
    { table := some (.tstr "sop.widgets"), id := some (.jstr "7"),
      updates := some { comment := some .jnull, needtosend := none } }
    { comment := some .jnull, needtosend := none } rfl).1
    "sop.widgets" (.jstr "7") 7 ["sop", "widgets"] rfl (by decide) rfl (by decide)
    rfl (Or.inl rfl) rfl rfl
